import Mathlib

/-!
# Verification of the Open3D GUI interaction and capture-pipeline spec

Shallow embedding of the interaction controller (`SceneWidget.cpp`) and the
off-screen capture pipeline (`FilamentRenderToBuffer.cpp`), together with
proofs of the behavioural properties stated in the natural-language
specification.  Machine `double`/`float` arithmetic is modelled by exact real
arithmetic; pointers are modelled by `Option Nat` (with `none` for null);
externally registered callbacks are identified by natural numbers and their
invocations are recorded as emitted events.
-/

set_option maxHeartbeats 1000000

/-! ## Off-screen capture pipeline (`FilamentRenderToBuffer`) -/

/-- Result record handed to a `BufferReadyCallback`: `{width, height, pixel
buffer pointer (or null), byte count}`. -/
structure BufferResult where
  width : Nat
  height : Nat
  pixels : Option Nat
  byteCount : Nat
deriving DecidableEq, Repr

/-- The empty result `{0, 0, nullptr, 0}` used to signal a rejected request. -/
def emptyResult : BufferResult := ⟨0, 0, none, 0⟩

/-- Mutable state of a `FilamentRenderToBuffer` object: dimensions, the
host-side pixel buffer pointer (`none` when not yet allocated), its size, the
stored `callback_`, and the `frame_done_` / `pending_` flags. -/
structure FilamentRenderToBuffer where
  width : Nat
  height : Nat
  buffer : Option Nat
  buffer_size : Nat
  callback : Nat
  frame_done : Bool
  pending : Bool
deriving DecidableEq, Repr

/-- Events observable during the capture pipeline's execution.  A
`cbInvoked` event records the pipeline state in effect while the caller's
completion callback executes. -/
inductive Ev where
  | frameSubmitted
  | readIssued (cb : Nat)
  | cbInvoked (st : FilamentRenderToBuffer) (cb : Nat) (r : BufferResult)
  | frameDoneSet
  | pendingCleared
deriving DecidableEq, Repr

/-- Embedding of `FilamentRenderToBuffer::RequestFrame(scene, callback)`.
The scene pointer is `Option Unit` (`none` for null); the returned list
records the callback invocations performed synchronously by the call
(callback id paired with the delivered result).  `malloc` of the lazily
allocated pixel buffer is modelled by the abstract non-null pointer
`some 1`. -/
def FilamentRenderToBuffer.RequestFrame (s : FilamentRenderToBuffer)
    (scene : Option Unit) (cb : Nat) :
    FilamentRenderToBuffer × List (Nat × BufferResult) :=
  match scene with
  | none => (s, [(cb, emptyResult)])
  | some _ =>
    if s.pending then
      (s, [(cb, emptyResult)])
    else
      let s1 := { s with pending := true }
      let s2 := if s1.buffer.isNone then { s1 with buffer := some 1 } else s1
      ({ s2 with callback := cb }, [])

/-- Embedding of `FilamentRenderToBuffer::ReadPixelsCallback`: it invokes the
callback captured at readback issuance with `{width_, height_, buffer_,
buffer_size_}` read from the current state, and only afterwards sets
`frame_done_`.  The `cbInvoked` event records the state in effect while the
callback runs. -/
def FilamentRenderToBuffer.ReadPixelsCallback (s : FilamentRenderToBuffer)
    (cb : Nat) : FilamentRenderToBuffer × List Ev :=
  ({ s with frame_done := true },
   [Ev.cbInvoked s cb ⟨s.width, s.height, s.buffer, s.buffer_size⟩,
    Ev.frameDoneSet])

/-- One iteration of the `while (!frame_done_)` loop of
`FilamentRenderToBuffer::Render`.  `issued` is `some c` once the asynchronous
pixel readback has been issued with captured callback `c` (the `shotDone`
flag together with the `PBDParams` capture); `beginOk` is whether
`renderer_->beginFrame` succeeds this iteration, and `fire` is whether the
engine delivers the pending readback completion during this iteration. -/
def FilamentRenderToBuffer.renderIter (s : FilamentRenderToBuffer)
    (issued : Option Nat) (beginOk fire : Bool) :
    FilamentRenderToBuffer × Option Nat × List Ev :=
  let afterBegin : Option Nat × List Ev :=
    if beginOk then
      match issued with
      | none => (some s.callback, [Ev.frameSubmitted, Ev.readIssued s.callback])
      | some c => (some c, [Ev.frameSubmitted])
    else (issued, [])
  match afterBegin.1, fire with
  | some c, true =>
      let done := s.ReadPixelsCallback c
      (done.1, some c, afterBegin.2 ++ done.2)
  | o, _ => (s, o, afterBegin.2)

/-- Fuel-bounded embedding of `Render`'s busy-wait loop followed by
`pending_ = false`.  Exhausted fuel models a loop that has not yet exited (no
`pendingCleared` is emitted). -/
def FilamentRenderToBuffer.renderLoop (beginOk fire : Nat → Bool) :
    Nat → Nat → FilamentRenderToBuffer → Option Nat →
    FilamentRenderToBuffer × List Ev
  | 0, _, s, _ => (s, [])
  | fuel + 1, i, s, issued =>
    if s.frame_done then
      ({ s with pending := false }, [Ev.pendingCleared])
    else
      let t := s.renderIter issued (beginOk i) (fire i)
      let rest := FilamentRenderToBuffer.renderLoop beginOk fire fuel (i + 1) t.1 t.2.1
      (rest.1, t.2.2 ++ rest.2)

/-- Embedding of `FilamentRenderToBuffer::Render`: clears `frame_done_`,
runs the loop with `shotDone = false` (`issued = none`), and clears
`pending_` once the loop exits. -/
def FilamentRenderToBuffer.Render (s : FilamentRenderToBuffer) (fuel : Nat)
    (beginOk fire : Nat → Bool) : FilamentRenderToBuffer × List Ev :=
  FilamentRenderToBuffer.renderLoop beginOk fire fuel 0
    { s with frame_done := false } none

/-- Shared helper: `RequestFrame` with a null scene or while a request is
pending returns the state unchanged and invokes the callback exactly once
with the empty result. -/
theorem requestFrame_rejects (s : FilamentRenderToBuffer)
    (scene : Option Unit) (cb : Nat) (h : scene = none ∨ s.pending = true) :
    s.RequestFrame scene cb = (s, [(cb, emptyResult)]) := by
  rcases h with h | h
  · subst h; rfl
  · cases scene with
    | none => rfl
    | some u => simp [FilamentRenderToBuffer.RequestFrame, h]

/-- One loop iteration never changes the `pending_` flag. -/
theorem renderIter_pending (s : FilamentRenderToBuffer) (issued : Option Nat)
    (b f : Bool) : (s.renderIter issued b f).1.pending = s.pending := by
  cases b <;> cases issued <;> cases f <;>
    simp [FilamentRenderToBuffer.renderIter,
      FilamentRenderToBuffer.ReadPixelsCallback]

/-- Any `cbInvoked` event emitted by one loop iteration records exactly the
state at the start of that iteration. -/
theorem renderIter_cbInvoked (s : FilamentRenderToBuffer)
    (issued : Option Nat) (b f : Bool) (st : FilamentRenderToBuffer)
    (c : Nat) (r : BufferResult)
    (h : Ev.cbInvoked st c r ∈ (s.renderIter issued b f).2.2) : st = s := by
  cases b <;> cases issued <;> cases f <;>
    simp [FilamentRenderToBuffer.renderIter,
      FilamentRenderToBuffer.ReadPixelsCallback] at h <;> tauto

/-- A loop iteration never emits `pendingCleared`. -/
theorem renderIter_no_pendingCleared (s : FilamentRenderToBuffer)
    (issued : Option Nat) (b f : Bool) :
    Ev.pendingCleared ∉ (s.renderIter issued b f).2.2 := by
  cases b <;> cases issued <;> cases f <;>
    simp [FilamentRenderToBuffer.renderIter,
      FilamentRenderToBuffer.ReadPixelsCallback]

/-- If an iteration starting with `frame_done_ = false` ends with
`frame_done_ = true` then the completion callback was invoked during it. -/
theorem renderIter_done_has_cb (s : FilamentRenderToBuffer)
    (issued : Option Nat) (b f : Bool) (h0 : s.frame_done = false)
    (h : (s.renderIter issued b f).1.frame_done = true) :
    ∃ st c r, Ev.cbInvoked st c r ∈ (s.renderIter issued b f).2.2 := by
  cases b <;> cases issued <;> cases f <;>
    simp [FilamentRenderToBuffer.renderIter,
      FilamentRenderToBuffer.ReadPixelsCallback, h0] at h ⊢

/-- Once the readback has been issued, an iteration keeps the captured
callback. -/
theorem renderIter_issued_some (s : FilamentRenderToBuffer) (c0 : Nat)
    (b f : Bool) : (s.renderIter (some c0) b f).2.1 = some c0 := by
  cases b <;> cases f <;>
    simp [FilamentRenderToBuffer.renderIter,
      FilamentRenderToBuffer.ReadPixelsCallback]

/-- Once the readback has been issued, an iteration never issues another. -/
theorem renderIter_no_readIssued (s : FilamentRenderToBuffer) (c0 c : Nat)
    (b f : Bool) : Ev.readIssued c ∉ (s.renderIter (some c0) b f).2.2 := by
  cases b <;> cases f <;>
    simp [FilamentRenderToBuffer.renderIter,
      FilamentRenderToBuffer.ReadPixelsCallback]

/-- Every `cbInvoked` event in the render loop's trace records a state whose
`pending_` flag equals the loop entry's and whose `frame_done_` flag is still
unset. -/
theorem renderLoop_cbInvoked (bOk fire : Nat → Bool) :
    ∀ (fuel i : Nat) (s : FilamentRenderToBuffer) (issued : Option Nat)
      (st : FilamentRenderToBuffer) (c : Nat) (r : BufferResult),
      Ev.cbInvoked st c r ∈
        (FilamentRenderToBuffer.renderLoop bOk fire fuel i s issued).2 →
      st.pending = s.pending ∧ st.frame_done = false := by
  intro fuel
  induction fuel with
  | zero => intro i s issued st c r h; simp [FilamentRenderToBuffer.renderLoop] at h
  | succ fuel ih =>
    intro i s issued st c r h
    by_cases hd : s.frame_done
    · simp [FilamentRenderToBuffer.renderLoop, hd] at h
    · simp only [FilamentRenderToBuffer.renderLoop, hd, if_neg, Bool.false_eq_true,
        not_false_eq_true, if_false, List.mem_append] at h
      rcases h with h | h
      · have := renderIter_cbInvoked s issued (bOk i) (fire i) st c r h
        subst this
        exact ⟨rfl, by simpa using hd⟩
      · have := ih (i + 1) _ _ st c r h
        rw [renderIter_pending] at this
        exact this

/-- After the readback has been issued, the rest of the loop issues no
further readback. -/
theorem renderLoop_no_readIssued (bOk fire : Nat → Bool) :
    ∀ (fuel i : Nat) (s : FilamentRenderToBuffer) (c0 c : Nat),
      Ev.readIssued c ∉
        (FilamentRenderToBuffer.renderLoop bOk fire fuel i s (some c0)).2 := by
  intro fuel
  induction fuel with
  | zero => intro i s c0 c h; simp [FilamentRenderToBuffer.renderLoop] at h
  | succ fuel ih =>
    intro i s c0 c h
    by_cases hd : s.frame_done
    · simp [FilamentRenderToBuffer.renderLoop, hd] at h
    · simp only [FilamentRenderToBuffer.renderLoop, hd, Bool.false_eq_true,
        not_false_eq_true, if_false, List.mem_append] at h
      rcases h with h | h
      · exact renderIter_no_readIssued s c0 c (bOk i) (fire i) h
      · rw [renderIter_issued_some] at h
        exact ih (i + 1) _ c0 c h

/-- The loop clears `pending_` only after its exit condition was reached,
which (starting from `frame_done_ = false`) requires the readback completion
callback to have been invoked: `pendingCleared` in the trace implies a
`cbInvoked` event in the trace. -/
theorem renderLoop_pendingCleared_needs_cb (bOk fire : Nat → Bool) :
    ∀ (fuel i : Nat) (s : FilamentRenderToBuffer) (issued : Option Nat),
      s.frame_done = false →
      Ev.pendingCleared ∈
        (FilamentRenderToBuffer.renderLoop bOk fire fuel i s issued).2 →
      ∃ st c r, Ev.cbInvoked st c r ∈
        (FilamentRenderToBuffer.renderLoop bOk fire fuel i s issued).2 := by
  intro fuel
  induction fuel with
  | zero =>
    intro i s issued h0 h
    simp [FilamentRenderToBuffer.renderLoop] at h
  | succ fuel ih =>
    intro i s issued h0 h
    simp only [FilamentRenderToBuffer.renderLoop, h0, Bool.false_eq_true,
      not_false_eq_true, if_false, List.mem_append] at h ⊢
    rcases h with h | h
    · exact absurd h (renderIter_no_pendingCleared s issued (bOk i) (fire i))
    · cases hfd : (s.renderIter issued (bOk i) (fire i)).1.frame_done with
      | true =>
        obtain ⟨st, c, r, hmem⟩ :=
          renderIter_done_has_cb s issued (bOk i) (fire i) h0 hfd
        exact ⟨st, c, r, Or.inl hmem⟩
      | false =>
        obtain ⟨st, c, r, hmem⟩ := ih (i + 1) _ _ hfd h
        exact ⟨st, c, r, Or.inr hmem⟩

/-- Starting with no readback issued, any `readIssued` event in the loop's
trace occurs immediately after the first submitted frame, and it is the only
one in the whole trace. -/
theorem renderLoop_readIssued_first (bOk fire : Nat → Bool) :
    ∀ (fuel i : Nat) (s : FilamentRenderToBuffer) (c : Nat),
      Ev.readIssued c ∈
        (FilamentRenderToBuffer.renderLoop bOk fire fuel i s none).2 →
      ∃ pre post,
        (FilamentRenderToBuffer.renderLoop bOk fire fuel i s none).2 =
          pre ++ Ev.frameSubmitted :: Ev.readIssued c :: post ∧
        Ev.frameSubmitted ∉ pre ∧ (∀ cx, Ev.readIssued cx ∉ pre) ∧
        (∀ cx, Ev.readIssued cx ∉ post) := by
  intro fuel
  induction fuel with
  | zero =>
    intro i s c h
    simp [FilamentRenderToBuffer.renderLoop] at h
  | succ fuel ih =>
    intro i s c h
    by_cases hd : s.frame_done
    · simp [FilamentRenderToBuffer.renderLoop, hd] at h
    · cases hb : bOk i with
      | false =>
        have hit : s.renderIter none (bOk i) (fire i) = (s, none, []) := by
          cases hf : fire i <;> simp [FilamentRenderToBuffer.renderIter, hb]
        have htr : (FilamentRenderToBuffer.renderLoop bOk fire (fuel + 1)
              i s none).2 =
            (FilamentRenderToBuffer.renderLoop bOk fire fuel (i + 1)
              s none).2 := by
          simp [FilamentRenderToBuffer.renderLoop, hd, hit]
        rw [htr] at h ⊢
        exact ih (i + 1) s c h
      | true =>
        cases hf : fire i with
        | false =>
          have hit : s.renderIter none (bOk i) (fire i) =
              (s, some s.callback,
               [Ev.frameSubmitted, Ev.readIssued s.callback]) := by
            simp [FilamentRenderToBuffer.renderIter, hb, hf]
          have htr : (FilamentRenderToBuffer.renderLoop bOk fire (fuel + 1)
                i s none).2 =
              Ev.frameSubmitted :: Ev.readIssued s.callback ::
                (FilamentRenderToBuffer.renderLoop bOk fire fuel (i + 1)
                  s (some s.callback)).2 := by
            simp [FilamentRenderToBuffer.renderLoop, hd, hit]
          rw [htr] at h ⊢
          simp only [List.mem_cons, Ev.readIssued.injEq, reduceCtorEq,
            false_or] at h
          rcases h with h | h
          · subst h
            refine ⟨[], _, rfl, by simp, by simp, ?_⟩
            intro cx
            exact renderLoop_no_readIssued bOk fire fuel (i + 1) s s.callback cx
          · exact absurd h
              (renderLoop_no_readIssued bOk fire fuel (i + 1) s s.callback c)
        | true =>
          have hit : s.renderIter none (bOk i) (fire i) =
              ({ s with frame_done := true }, some s.callback,
               [Ev.frameSubmitted, Ev.readIssued s.callback,
                Ev.cbInvoked s s.callback
                  ⟨s.width, s.height, s.buffer, s.buffer_size⟩,
                Ev.frameDoneSet]) := by
            simp [FilamentRenderToBuffer.renderIter,
              FilamentRenderToBuffer.ReadPixelsCallback, hb, hf]
          have htr : (FilamentRenderToBuffer.renderLoop bOk fire (fuel + 1)
                i s none).2 =
              Ev.frameSubmitted :: Ev.readIssued s.callback ::
                Ev.cbInvoked s s.callback
                  ⟨s.width, s.height, s.buffer, s.buffer_size⟩ ::
                Ev.frameDoneSet ::
                (FilamentRenderToBuffer.renderLoop bOk fire fuel (i + 1)
                  { s with frame_done := true } (some s.callback)).2 := by
            simp [FilamentRenderToBuffer.renderLoop, hd, hit]
          rw [htr] at h ⊢
          simp only [List.mem_cons, Ev.readIssued.injEq, reduceCtorEq,
            false_or] at h
          rcases h with h | h
          · subst h
            refine ⟨[], _, rfl, by simp, by simp, ?_⟩
            intro cx
            simp only [List.mem_cons, not_or]
            refine ⟨by simp, by simp, ?_⟩
            exact renderLoop_no_readIssued bOk fire fuel (i + 1) _ s.callback cx
          · exact absurd h
              (renderLoop_no_readIssued bOk fire fuel (i + 1) _ s.callback c)

/-- A capture pipeline with no request in flight and no buffer allocated
yet. -/
def rtbIdle : FilamentRenderToBuffer :=
  { width := 2, height := 2, buffer := none, buffer_size := 12,
    callback := 0, frame_done := true, pending := false }

/-- A capture pipeline with a request in flight (`pending_ = true`). -/
def rtbPending : FilamentRenderToBuffer :=
  { width := 2, height := 1, buffer := some 1, buffer_size := 6,
    callback := 5, frame_done := false, pending := true }

/-- C1: if the scene is null or a request is already pending, `RequestFrame`
invokes the callback synchronously exactly once with the empty result
`{0, 0, nullptr, 0}`, returns without queuing the request, and leaves the
whole state — in particular the pending flag, the stored callback and the
pixel buffer — unchanged, so an in-flight request is unaffected. -/
theorem requestFrame_null_or_pending_rejected (s : FilamentRenderToBuffer)
    (scene : Option Unit) (cb : Nat) (h : scene = none ∨ s.pending = true) :
    s.RequestFrame scene cb = (s, [(cb, emptyResult)]) :=
  requestFrame_rejects s scene cb h

/-- Witness for C1 at a concrete pending pipeline and a non-null scene. -/
theorem requestFrame_null_or_pending_rejected_witness :
    rtbPending.pending = true ∧
    rtbPending.RequestFrame (some ()) 3 = (rtbPending, [(3, emptyResult)]) :=
  ⟨rfl, requestFrame_null_or_pending_rejected rtbPending (some ()) 3
    (Or.inr rfl)⟩

/-- Counterexample to C2 as stated: on a fresh pipeline with a non-null
scene, `RequestFrame` performs no callback invocation before returning and
leaves the request still pending — it does not itself run the render loop to
completion. -/
theorem requestFrame_returns_before_render_counterexample :
    (rtbIdle.RequestFrame (some ()) 7).2 = [] ∧
    (rtbIdle.RequestFrame (some ()) 7).1.pending = true := by
  decide

/-- C2 (amended): with a non-null scene and no pending request,
`RequestFrame` transitions to Pending, lazily allocates the pixel buffer,
stores the callback and returns immediately without invoking the callback;
the busy-wait render loop is the separate `Render` entry point, which issues
the asynchronous pixel readback at most once — immediately after the first
successfully submitted frame — and clears the pending flag only after the
readback completion callback has fired. -/
theorem requestFrame_then_render_pipeline (s : FilamentRenderToBuffer)
    (cb fuel : Nat) (bOk fire : Nat → Bool) (h : s.pending = false) :
    (s.RequestFrame (some ()) cb).1 =
      { s with pending := true, callback := cb,
               buffer := some (s.buffer.getD 1) } ∧
    (s.RequestFrame (some ()) cb).2 = [] ∧
    (∀ c, Ev.readIssued c ∈
        (((s.RequestFrame (some ()) cb).1.Render fuel bOk fire)).2 →
      ∃ pre post,
        (((s.RequestFrame (some ()) cb).1.Render fuel bOk fire)).2 =
          pre ++ Ev.frameSubmitted :: Ev.readIssued c :: post ∧
        Ev.frameSubmitted ∉ pre ∧ (∀ cx, Ev.readIssued cx ∉ pre) ∧
        (∀ cx, Ev.readIssued cx ∉ post)) ∧
    (Ev.pendingCleared ∈
        (((s.RequestFrame (some ()) cb).1.Render fuel bOk fire)).2 →
      ∃ st c r, Ev.cbInvoked st c r ∈
        (((s.RequestFrame (some ()) cb).1.Render fuel bOk fire)).2) := by
  refine ⟨?_, ?_, ?_, ?_⟩
  · cases hbuf : s.buffer <;>
      simp [FilamentRenderToBuffer.RequestFrame, h, hbuf]
  · cases hbuf : s.buffer <;>
      simp [FilamentRenderToBuffer.RequestFrame, h, hbuf]
  · intro c hc
    simp only [FilamentRenderToBuffer.Render] at hc ⊢
    exact renderLoop_readIssued_first bOk fire fuel 0 _ c hc
  · intro hc
    simp only [FilamentRenderToBuffer.Render] at hc ⊢
    exact renderLoop_pendingCleared_needs_cb bOk fire fuel 0 _ none rfl hc

/-- Witness for C2 (amended) at a concrete idle pipeline. -/
theorem requestFrame_then_render_pipeline_witness :
    rtbIdle.pending = false ∧
    (rtbIdle.RequestFrame (some ()) 4).1 =
      { rtbIdle with pending := true, callback := 4, buffer := some 1 } ∧
    (rtbIdle.RequestFrame (some ()) 4).2 = [] := by
  have h := requestFrame_then_render_pipeline rtbIdle 4 3
    (fun _ => true) (fun _ => true) rfl
  exact ⟨rfl, by simpa [rtbIdle] using h.1, h.2.1⟩

/-- C10: during capture completion the caller's callback runs before the
loop-exit flag is set and before the pending flag is cleared, so the state
recorded while the completion callback executes still has `pending_ = true`
and `frame_done_ = false`, and any `RequestFrame` issued from inside the
completion callback is rejected with the zero-sized result. -/
theorem capture_callback_while_pending (s : FilamentRenderToBuffer)
    (fuel : Nat) (bOk fire : Nat → Bool) (hp : s.pending = true)
    (st : FilamentRenderToBuffer) (c : Nat) (r : BufferResult)
    (hmem : Ev.cbInvoked st c r ∈ (s.Render fuel bOk fire).2) :
    st.pending = true ∧ st.frame_done = false ∧
    ∀ (scene : Option Unit) (cb2 : Nat),
      st.RequestFrame scene cb2 = (st, [(cb2, emptyResult)]) := by
  have h := renderLoop_cbInvoked bOk fire fuel 0
    { s with frame_done := false } none st c r
    (by simpa [FilamentRenderToBuffer.Render] using hmem)
  have hp' : st.pending = true := by
    rw [h.1]; exact hp
  exact ⟨hp', h.2, fun scene cb2 =>
    requestFrame_rejects st scene cb2 (Or.inr hp')⟩

/-- Witness for C10: a concrete pending capture whose completion fires on
the first frame; the recorded mid-callback state is still pending and a
nested `RequestFrame` is rejected. -/
theorem capture_callback_while_pending_witness :
    rtbPending.pending = true ∧
    Ev.cbInvoked rtbPending 5 ⟨2, 1, some 1, 6⟩ ∈
      (rtbPending.Render 2 (fun _ => true) (fun _ => true)).2 ∧
    (rtbPending.pending = true ∧ rtbPending.frame_done = false ∧
      ∀ (scene : Option Unit) (cb2 : Nat),
        rtbPending.RequestFrame scene cb2 =
          (rtbPending, [(cb2, emptyResult)])) :=
  ⟨rfl, by decide,
   capture_callback_while_pending rtbPending 2 (fun _ => true) (fun _ => true)
     rfl rtbPending 5 ⟨2, 1, some 1, 6⟩ (by decide)⟩

/-! ## Interaction dispatcher (`Interactors` in `SceneWidget.cpp`) -/

/-- The five interactors owned by the dispatcher. -/
inductive InteractorId where
  | rotate
  | fly
  | sun
  | ibl
  | model
deriving DecidableEq, Repr

/-- Mouse event types (`MouseEvent::Type`). -/
inductive MouseEventType where
  | move
  | buttonDown
  | drag
  | buttonUp
  | wheel
deriving DecidableEq, Repr

/-- Mouse button identity (`MouseButton`). -/
inductive MouseButton where
  | noButton
  | left
  | middle
  | right
deriving DecidableEq, Repr

/-- Modelled from the spec: events carry a "modifier-key bitmask"; the
`KeyModifier` bit values themselves are declared outside the excerpted
sources, so distinct single bits are assigned here. -/
def KeyModifier.SHIFT : Nat := 1

/-- Modelled from the spec: the control-key modifier bit. -/
def KeyModifier.CTRL : Nat := 2

/-- Modelled from the spec: the alt/option modifier bit. -/
def KeyModifier.ALT : Nat := 4

/-- Modelled from the spec: the meta modifier bit. -/
def KeyModifier.META : Nat := 8

/-- Mouse event: type, pixel position, modifier bitmask, and button. -/
structure MouseEvent where
  type : MouseEventType
  x : Int
  y : Int
  modifiers : Nat
  button : MouseButton
deriving DecidableEq, Repr

/-- Routing state of the dispatcher: the active interactor (`current_`) and
the momentary override (`override_`, null when none). -/
structure Interactors where
  current : InteractorId
  override : Option InteractorId
deriving DecidableEq, Repr

/-- Embedding of `Interactors::Mouse`: arms the sun (light-rotation)
override when the active interactor is the orbit camera and a button-down
event has the middle button or a modifier bitmask exactly equal to ALT;
delivers the event to the override if armed, otherwise to the active
interactor; clears the override after delivering a button-up event.  The
second component of the result is the interactor the event was delivered
to. -/
def Interactors.Mouse (st : Interactors) (e : MouseEvent) :
    Interactors × InteractorId :=
  let ov1 : Option InteractorId :=
    if st.current = InteractorId.rotate ∧ e.type = MouseEventType.buttonDown ∧
        (e.button = MouseButton.middle ∨ e.modifiers = KeyModifier.ALT) then
      some InteractorId.sun
    else st.override
  let target : InteractorId :=
    match ov1 with
    | some o => o
    | none => st.current
  let ov2 : Option InteractorId :=
    if ov1.isSome ∧ e.type = MouseEventType.buttonUp then none else ov1
  (⟨st.current, ov2⟩, target)

/-- Dispatcher in orbit mode with no override armed. -/
def orbitIdle : Interactors := ⟨InteractorId.rotate, none⟩

/-- Dispatcher in orbit mode with the sun override armed. -/
def sunOverride : Interactors := ⟨InteractorId.rotate, some InteractorId.sun⟩

/-- A left-button-down event carrying alt together with shift. -/
def altShiftDown : MouseEvent :=
  ⟨MouseEventType.buttonDown, 10, 10, KeyModifier.ALT + KeyModifier.SHIFT,
   MouseButton.left⟩

/-- A middle-button-down event with no modifiers. -/
def middleDown : MouseEvent :=
  ⟨MouseEventType.buttonDown, 5, 5, 0, MouseButton.middle⟩

/-- A button-up event with no modifiers. -/
def plainButtonUp : MouseEvent :=
  ⟨MouseEventType.buttonUp, 6, 6, 0, MouseButton.middle⟩

/-- Counterexample to C3 as stated: in orbit mode with no override armed, a
left-button-down that carries the alt modifier together with shift does not
arm the light-rotation override — the event is routed to the active
orbit-camera interactor and the override stays clear, because the code
compares the whole modifier bitmask for equality with ALT. -/
theorem override_carries_alt_counterexample :
    (orbitIdle.Mouse altShiftDown).1.override = none ∧
    (orbitIdle.Mouse altShiftDown).2 = InteractorId.rotate := by
  decide

/-- C3 (amended): while the active interactor is the orbit camera and no
override is armed, a button-down whose button is the middle button or whose
modifier bitmask equals exactly the alt modifier arms the sun interactor as
the override and delivers that event to it; while the override is armed
every mouse event is delivered exclusively to the override interactor; and
a button-up event is delivered to the override and then clears it
unconditionally. -/
theorem override_routing (st : Interactors) (e : MouseEvent) :
    (st.current = InteractorId.rotate → st.override = none →
      e.type = MouseEventType.buttonDown →
      (e.button = MouseButton.middle ∨ e.modifiers = KeyModifier.ALT) →
      (st.Mouse e).1.override = some InteractorId.sun ∧
        (st.Mouse e).2 = InteractorId.sun) ∧
    (st.override = some InteractorId.sun →
      (st.Mouse e).2 = InteractorId.sun) ∧
    (st.override = some InteractorId.sun →
      e.type = MouseEventType.buttonUp →
      (st.Mouse e).1.override = none ∧ (st.Mouse e).2 = InteractorId.sun) := by
  refine ⟨?_, ?_, ?_⟩
  · intro hcur hov htype harm
    simp [Interactors.Mouse, hcur, hov, htype, harm]
  · intro hov
    by_cases harm : st.current = InteractorId.rotate ∧
        e.type = MouseEventType.buttonDown ∧
        (e.button = MouseButton.middle ∨ e.modifiers = KeyModifier.ALT)
    · simp [Interactors.Mouse, harm]
    · simp [Interactors.Mouse, harm, hov]
  · intro hov htype
    have harm : ¬(st.current = InteractorId.rotate ∧
        e.type = MouseEventType.buttonDown ∧
        (e.button = MouseButton.middle ∨ e.modifiers = KeyModifier.ALT)) := by
      rintro ⟨-, h2, -⟩
      rw [htype] at h2
      exact absurd h2 (by decide)
    simp [Interactors.Mouse, harm, hov, htype]

/-- Witness for C3 (amended): a middle-button-down in orbit mode arms and
receives the override; a button-up while the override is armed is delivered
to it and clears it. -/
theorem override_routing_witness :
    ((orbitIdle.Mouse middleDown).1.override = some InteractorId.sun ∧
     (orbitIdle.Mouse middleDown).2 = InteractorId.sun) ∧
    ((sunOverride.Mouse plainButtonUp).1.override = none ∧
     (sunOverride.Mouse plainButtonUp).2 = InteractorId.sun) :=
  ⟨(override_routing orbitIdle middleDown).1 rfl rfl rfl (Or.inl rfl),
   (override_routing sunOverride plainButtonUp).2.2 rfl rfl⟩

/-- C9: the modifier-based override trigger tests the event's modifier
bitmask for exact equality with ALT, so in orbit mode a non-middle
button-down carrying alt together with any other modifier does not arm the
light-rotation override and is routed to the active orbit-camera
interactor. -/
theorem alt_trigger_exact_equality (st : Interactors) (e : MouseEvent)
    (hcur : st.current = InteractorId.rotate) (hov : st.override = none)
    (htype : e.type = MouseEventType.buttonDown)
    (hbtn : e.button ≠ MouseButton.middle)
    (_hAltBit : e.modifiers &&& KeyModifier.ALT ≠ 0)
    (hne : e.modifiers ≠ KeyModifier.ALT) :
    (st.Mouse e).1.override = none ∧
    (st.Mouse e).2 = InteractorId.rotate := by
  simp [Interactors.Mouse, hcur, hov, htype, hbtn, hne]

/-- Witness for C9 at a concrete alt-plus-shift left-button-down. -/
theorem alt_trigger_exact_equality_witness :
    (orbitIdle.current = InteractorId.rotate ∧ orbitIdle.override = none ∧
     altShiftDown.type = MouseEventType.buttonDown ∧
     altShiftDown.button ≠ MouseButton.middle ∧
     altShiftDown.modifiers &&& KeyModifier.ALT ≠ 0 ∧
     altShiftDown.modifiers ≠ KeyModifier.ALT) ∧
    ((orbitIdle.Mouse altShiftDown).1.override = none ∧
     (orbitIdle.Mouse altShiftDown).2 = InteractorId.rotate) :=
  ⟨by decide,
   alt_trigger_exact_equality orbitIdle altShiftDown rfl rfl rfl
     (by decide) (by decide) (by decide)⟩

/-! ## Vectors, bounding volumes and the viewport host (`SceneWidget`) -/

/-- Three-component vector over exact reals, modelling `Eigen::Vector3f` /
`Eigen::Vector3d`. -/
structure Vec3 where
  x : ℝ
  y : ℝ
  z : ℝ

namespace Vec3

instance : Add Vec3 := ⟨fun a b => ⟨a.x + b.x, a.y + b.y, a.z + b.z⟩⟩

instance : Sub Vec3 := ⟨fun a b => ⟨a.x - b.x, a.y - b.y, a.z - b.z⟩⟩

instance : SMul ℝ Vec3 := ⟨fun c v => ⟨c * v.x, c * v.y, c * v.z⟩⟩

/-- Euclidean norm, modelling Eigen's `.norm()`. -/
noncomputable def norm (v : Vec3) : ℝ :=
  Real.sqrt (v.x ^ 2 + v.y ^ 2 + v.z ^ 2)

theorem add_def (a b : Vec3) : a + b = ⟨a.x + b.x, a.y + b.y, a.z + b.z⟩ :=
  rfl

theorem sub_def (a b : Vec3) : a - b = ⟨a.x - b.x, a.y - b.y, a.z - b.z⟩ :=
  rfl

theorem smul_def (c : ℝ) (v : Vec3) : c • v = ⟨c * v.x, c * v.y, c * v.z⟩ :=
  rfl

theorem norm_nonneg (v : Vec3) : 0 ≤ v.norm := Real.sqrt_nonneg _

/-- Scaling a vector by a nonnegative factor scales its norm by that
factor. -/
theorem norm_smul_of_nonneg (c : ℝ) (v : Vec3) (hc : 0 ≤ c) :
    (c • v).norm = c * v.norm := by
  rw [smul_def, norm, norm]
  have : (c * v.x) ^ 2 + (c * v.y) ^ 2 + (c * v.z) ^ 2 =
      c ^ 2 * (v.x ^ 2 + v.y ^ 2 + v.z ^ 2) := by ring
  rw [this, Real.sqrt_mul (sq_nonneg c), Real.sqrt_sq hc]

end Vec3

/-- Axis-aligned bounding box as min/max corners.  Modelled from the spec:
the data model describes the bounding volume as "axis-aligned min/max
corners of the currently displayed content"; the accessors `GetExtent`
(diagonal `max - min`), `GetCenter` (midpoint) and `GetMaxExtent` (largest
diagonal component) of `geometry::AxisAlignedBoundingBox` are declared
outside the excerpted sources. -/
structure AABB where
  minBound : Vec3
  maxBound : Vec3

namespace AABB

/-- Diagonal vector `max_bound_ - min_bound_` (`GetExtent`). -/
def extent (b : AABB) : Vec3 := b.maxBound - b.minBound

/-- Midpoint of the two corners (`GetCenter`). -/
noncomputable def center (b : AABB) : Vec3 :=
  (1 / 2 : ℝ) • (b.minBound + b.maxBound)

/-- Largest component of the diagonal (`GetMaxExtent`). -/
noncomputable def maxExtent (b : AABB) : ℝ :=
  max (max b.extent.x b.extent.y) b.extent.z

end AABB

/-- Camera projection parameters as passed to `Camera::SetProjection`. -/
structure Projection where
  fov : ℝ
  aspect : ℝ
  near : ℝ
  far : ℝ

/-- Camera preset directions used by `SceneWidget::GoToCameraPreset`. -/
inductive CameraPreset where
  | plusX
  | plusY
  | plusZ
deriving DecidableEq, Repr

/-- View-control modes (`SceneWidget::Controls`). -/
inductive Controls where
  | ROTATE_OBJ
  | FLY
  | ROTATE_SUN
  | ROTATE_IBL
  | ROTATE_MODEL
deriving DecidableEq, Repr

/-- State of a `SceneWidget` relevant to camera setup and view-control
switching: the stored bounding volume, the camera handle (position, forward
vector and projection) and the dispatcher's active interactor together with
the orbit interactor's center of rotation. -/
structure SceneWidget where
  bounds : AABB
  camPosition : Vec3
  camForward : Vec3
  projection : Projection
  current : InteractorId
  centerOfRotation : Vec3

/-- Embedding of `Interactors::GetControls`: maps the active interactor
back to the control mode. -/
def Interactors.GetControls (current : InteractorId) : Controls :=
  match current with
  | InteractorId.fly => Controls.FLY
  | InteractorId.sun => Controls.ROTATE_SUN
  | InteractorId.ibl => Controls.ROTATE_IBL
  | InteractorId.model => Controls.ROTATE_MODEL
  | InteractorId.rotate => Controls.ROTATE_OBJ

/-- Embedding of `Interactors::SetControls`: selects the interactor for a
control mode. -/
def Interactors.SetControls (mode : Controls) : InteractorId :=
  match mode with
  | Controls.ROTATE_OBJ => InteractorId.rotate
  | Controls.FLY => InteractorId.fly
  | Controls.ROTATE_SUN => InteractorId.sun
  | Controls.ROTATE_IBL => InteractorId.ibl
  | Controls.ROTATE_MODEL => InteractorId.model

/-- Normalisation of a vector; modelled from the spec's camera interface
(`get forward vector`): `LookAt` aims the camera's forward vector from the
eye toward the target. -/
noncomputable def Vec3.normalize (v : Vec3) : Vec3 := (1 / v.norm) • v

/-- The near plane constant `NEAR_PLANE = 0.1` of `SceneWidget.cpp`. -/
def NEAR_PLANE : ℝ := 0.1

/-- The minimum far plane constant `MIN_FAR_PLANE = 1.0`. -/
def MIN_FAR_PLANE : ℝ := 1.0

/-- Embedding of `SceneWidget::GoToCameraPreset`: places the eye
`1.25 * GetMaxExtent()` away from the bounding-volume center along the
preset axis, aims the camera at the center (`Camera::LookAt`), and resets
the orbit center of rotation to the bounding-volume center. -/
noncomputable def SceneWidget.GoToCameraPreset (s : SceneWidget)
    (preset : CameraPreset) : SceneWidget :=
  let max_dim := (1.25 : ℝ) * s.bounds.maxExtent
  let center := s.bounds.center
  let eye : Vec3 :=
    match preset with
    | CameraPreset.plusX => ⟨center.x + max_dim, center.y, center.z⟩
    | CameraPreset.plusY => ⟨center.x, center.y + max_dim, center.z⟩
    | CameraPreset.plusZ => ⟨center.x, center.y, center.z + max_dim⟩
  { s with camPosition := eye,
           camForward := Vec3.normalize (center - eye),
           centerOfRotation := center }

/-- Embedding of `SceneWidget::SetupCamera`: stores the bounding volume,
applies the PLUS_Z camera preset, and sets the projection with near plane
`NEAR_PLANE` and far plane
`max(MIN_FAR_PLANE, max(max(far1, far2), far3) + model_size)` where `far1`
and `far2` are the distances from the origin to the bounding-volume
corners, `far3` is the camera's distance from the origin, and `model_size`
is twice the bounding-volume extent norm. -/
noncomputable def SceneWidget.SetupCamera (s : SceneWidget)
    (verticalFoV : ℝ) (geometry_bounds : AABB) (frameW frameH : Nat) :
    SceneWidget :=
  let s0 := { s with bounds := geometry_bounds }
  let s1 := s0.GoToCameraPreset CameraPreset.plusZ
  let aspect : ℝ := if 0 < frameH then (frameW : ℝ) / (frameH : ℝ) else 1
  let far1 := s1.bounds.minBound.norm
  let far2 := s1.bounds.maxBound.norm
  let far3 := s1.camPosition.norm
  let model_size := 2 * s1.bounds.extent.norm
  let far := max MIN_FAR_PLANE (max (max far1 far2) far3 + model_size)
  { s1 with projection := ⟨verticalFoV, aspect, NEAR_PLANE, far⟩ }

/-- Embedding of `SceneWidget::SetViewControls`: switching to ROTATE_OBJ
while the current mode is FLY additionally recomputes the orbit center of
rotation as `cameraPosition + ||boundsCenter - cameraPosition|| * forward`;
every other transition only switches the active interactor. -/
noncomputable def SceneWidget.SetViewControls (s : SceneWidget)
    (mode : Controls) : SceneWidget :=
  if mode = Controls.ROTATE_OBJ ∧
      Interactors.GetControls s.current = Controls.FLY then
    let s1 := { s with current := Interactors.SetControls mode }
    let to_center := s.bounds.center - s.camPosition
    let forward := s.camForward
    let center := s.camPosition + to_center.norm • forward
    { s1 with centerOfRotation := center }
  else
    { s with current := Interactors.SetControls mode }

/-- C4: switching to ROTATE_OBJ while the current mode is FLY sets the
orbit center of rotation to
`cameraPosition + ||boundsCenter - cameraPosition|| * forward`; every other
transition only switches the active interactor and leaves the center of
rotation unchanged. -/
theorem setViewControls_fly_to_orbit (s : SceneWidget) :
    (s.current = InteractorId.fly →
      s.SetViewControls Controls.ROTATE_OBJ =
        { s with current := InteractorId.rotate,
                 centerOfRotation :=
                   s.camPosition +
                     (s.bounds.center - s.camPosition).norm • s.camForward }) ∧
    (∀ mode : Controls,
      ¬(mode = Controls.ROTATE_OBJ ∧
          Interactors.GetControls s.current = Controls.FLY) →
      (s.SetViewControls mode).centerOfRotation = s.centerOfRotation ∧
      (s.SetViewControls mode).current = Interactors.SetControls mode) := by
  constructor
  · intro h
    simp [SceneWidget.SetViewControls, Interactors.GetControls,
      Interactors.SetControls, h]
  · intro mode hn
    rw [SceneWidget.SetViewControls, if_neg hn]
    exact ⟨rfl, rfl⟩

/-- A `SceneWidget` currently in fly mode, with the camera moved off
center. -/
noncomputable def flyWidget : SceneWidget :=
  { bounds := ⟨⟨0, 0, 0⟩, ⟨2, 2, 2⟩⟩,
    camPosition := ⟨1, 1, 0⟩,
    camForward := ⟨0, 0, 1⟩,
    projection := ⟨60, 1, 0.1, 100⟩,
    current := InteractorId.fly,
    centerOfRotation := ⟨1, 1, 1⟩ }

/-- Witness for C4: the fly-to-orbit transition at a concrete widget
recomputes the pivot along the forward vector, and a non-qualifying
transition (switching to FLY) leaves the pivot untouched. -/
theorem setViewControls_fly_to_orbit_witness :
    (flyWidget.SetViewControls Controls.ROTATE_OBJ =
      { flyWidget with
          current := InteractorId.rotate,
          centerOfRotation :=
            flyWidget.camPosition +
              (flyWidget.bounds.center - flyWidget.camPosition).norm •
                flyWidget.camForward }) ∧
    ((flyWidget.SetViewControls Controls.FLY).centerOfRotation =
      flyWidget.centerOfRotation) :=
  ⟨(setViewControls_fly_to_orbit flyWidget).1 rfl,
   ((setViewControls_fly_to_orbit flyWidget).2 Controls.FLY
     (by rintro ⟨hc, -⟩; exact absurd hc (by decide))).1⟩

/-- C5: `SetupCamera` sets the far plane to the maximum of the fixed
minimum 1.0 and (the largest of the distances from the origin to the two
bounding-volume corners and the camera's current distance from the origin
when the far plane is computed) plus twice the bounding-volume extent, so
the far plane is at least the fixed minimum and at least that largest
distance plus twice the extent; the near plane is fixed at 0.1. -/
theorem setupCamera_far_plane (s : SceneWidget) (fov : ℝ) (b : AABB)
    (w h : Nat) :
    (s.SetupCamera fov b w h).projection.far =
      max 1 (max (max b.minBound.norm b.maxBound.norm)
          (s.SetupCamera fov b w h).camPosition.norm +
        2 * b.extent.norm) ∧
    (s.SetupCamera fov b w h).projection.near = 0.1 ∧
    1 ≤ (s.SetupCamera fov b w h).projection.far ∧
    max (max b.minBound.norm b.maxBound.norm)
        (s.SetupCamera fov b w h).camPosition.norm +
      2 * b.extent.norm ≤ (s.SetupCamera fov b w h).projection.far := by
  have hmin : MIN_FAR_PLANE = 1 := by norm_num [MIN_FAR_PLANE]
  refine ⟨?_, rfl, ?_, ?_⟩
  · simp [SceneWidget.SetupCamera, SceneWidget.GoToCameraPreset, hmin]
  · rw [show (s.SetupCamera fov b w h).projection.far =
        max MIN_FAR_PLANE
          (max (max b.minBound.norm b.maxBound.norm)
              (s.SetupCamera fov b w h).camPosition.norm +
            2 * b.extent.norm) from rfl, hmin]
    exact le_max_left _ _
  · rw [show (s.SetupCamera fov b w h).projection.far =
        max MIN_FAR_PLANE
          (max (max b.minBound.norm b.maxBound.norm)
              (s.SetupCamera fov b w h).camPosition.norm +
            2 * b.extent.norm) from rfl]
    exact le_max_right _ _

/-! ## Fly interactor (`FlyInteractor::Tick`) -/

/-- Commands issued by `FlyInteractor` to its `CameraInteractorLogic`; the
camera mutation itself is performed by that external collaborator. -/
inductive FlyCmd where
  | moveLocal (v : Vec3)
  | rotateLocal (angleRad : ℝ) (axis : Vec3)
  | startMouseDrag
  | rotateZ (dx dy : Int)

/-- Character code of the key `a`. -/
def keyA : Nat := 97

/-- Character code of the key `d`. -/
def keyD : Nat := 100

/-- Character code of the key `w`. -/
def keyW : Nat := 119

/-- Character code of the key `s`. -/
def keyS : Nat := 115

/-- Character code of the key `q`. -/
def keyQ : Nat := 113

/-- Character code of the key `z`. -/
def keyZ : Nat := 122

/-- Character code of the key `e`. -/
def keyE : Nat := 101

/-- Character code of the key `r`. -/
def keyR : Nat := 114

/-- Modelled from the spec: the arrow-key codes `KEY_UP`, `KEY_DOWN`,
`KEY_LEFT`, `KEY_RIGHT` are declared outside the excerpted sources; they
are assigned distinct non-character codes here. -/
def KEY_UP : Nat := 265

/-- Modelled from the spec: the down-arrow key code. -/
def KEY_DOWN : Nat := 266

/-- Modelled from the spec: the left-arrow key code. -/
def KEY_LEFT : Nat := 263

/-- Modelled from the spec: the right-arrow key code. -/
def KEY_RIGHT : Nat := 262

/-- State of a `FlyInteractor` relevant to `Tick`: the set of currently
held keys (`keys_down_`) and the bounding box stored in its camera
controls (`GetBoundingBox()`). -/
structure FlyInteractor where
  keys_down : List Nat
  bounds : AABB

/-- The per-tick command list of `FlyInteractor::Tick` for held keys, in
source order: `dist = 0.0025f * bounds.GetExtent().norm()` and
`angle_rad = 0.0075f`. -/
noncomputable def FlyInteractor.tickCmds (f : FlyInteractor) : List FlyCmd :=
  let dist := (0.0025 : ℝ) * f.bounds.extent.norm
  let angle_rad := (0.0075 : ℝ)
  let hasKey : Nat → Bool := fun k => f.keys_down.contains k
  (if hasKey keyA then [FlyCmd.moveLocal ⟨-dist, 0, 0⟩] else []) ++
  (if hasKey keyD then [FlyCmd.moveLocal ⟨dist, 0, 0⟩] else []) ++
  (if hasKey keyW then [FlyCmd.moveLocal ⟨0, 0, -dist⟩] else []) ++
  (if hasKey keyS then [FlyCmd.moveLocal ⟨0, 0, dist⟩] else []) ++
  (if hasKey keyQ then [FlyCmd.moveLocal ⟨0, dist, 0⟩] else []) ++
  (if hasKey keyZ then [FlyCmd.moveLocal ⟨0, -dist, 0⟩] else []) ++
  (if hasKey keyE then
    [FlyCmd.startMouseDrag, FlyCmd.rotateZ 0 (-2)] else []) ++
  (if hasKey keyR then
    [FlyCmd.startMouseDrag, FlyCmd.rotateZ 0 2] else []) ++
  (if hasKey KEY_UP then
    [FlyCmd.rotateLocal angle_rad ⟨1, 0, 0⟩] else []) ++
  (if hasKey KEY_DOWN then
    [FlyCmd.rotateLocal (-angle_rad) ⟨1, 0, 0⟩] else []) ++
  (if hasKey KEY_LEFT then
    [FlyCmd.rotateLocal angle_rad ⟨0, 1, 0⟩] else []) ++
  (if hasKey KEY_RIGHT then
    [FlyCmd.rotateLocal (-angle_rad) ⟨0, 1, 0⟩] else [])

/-- Embedding of `FlyInteractor::Tick`: when any key is held, issues the
held keys' commands and reports redraw whenever at least one handled key
was processed. -/
noncomputable def FlyInteractor.Tick (f : FlyInteractor) :
    List FlyCmd × Bool :=
  if f.keys_down.isEmpty then ([], false)
  else (f.tickCmds, !f.tickCmds.isEmpty)

/-- The signed local-axis move vector issued for each translation key at
step length `d`. -/
noncomputable def flyMoveVec (k : Nat) (d : ℝ) : Vec3 :=
  if k = keyA then ⟨-d, 0, 0⟩
  else if k = keyD then ⟨d, 0, 0⟩
  else if k = keyW then ⟨0, 0, -d⟩
  else if k = keyS then ⟨0, 0, d⟩
  else if k = keyQ then ⟨0, d, 0⟩
  else if k = keyZ then ⟨0, -d, 0⟩
  else ⟨0, 0, 0⟩

/-- The translation keys of fly mode. -/
def translationKeys : List Nat := [keyA, keyD, keyW, keyS, keyQ, keyZ]

/-- With a nonnegative step, every translation key's move vector has norm
exactly the step. -/
theorem flyMoveVec_norm (k : Nat) (d : ℝ) (hd : 0 ≤ d)
    (hk : k ∈ translationKeys) : (flyMoveVec k d).norm = d := by
  have habs : Real.sqrt (d ^ 2) = d := by
    rw [Real.sqrt_sq hd]
  fin_cases hk <;>
    simp only [flyMoveVec, translationKeys, keyA, keyD, keyW, keyS, keyQ,
      keyZ, Vec3.norm] <;>
    norm_num <;>
    exact habs

/-- For every held translation key, `tickCmds` contains the corresponding
`MoveLocal` command with step `0.0025 * extent.norm`. -/
theorem tickCmds_mem_translation (f : FlyInteractor) (k : Nat)
    (hk : k ∈ translationKeys) (hheld : k ∈ f.keys_down) :
    FlyCmd.moveLocal (flyMoveVec k ((0.0025 : ℝ) * f.bounds.extent.norm)) ∈
      f.tickCmds := by
  have hcon : f.keys_down.contains k = true :=
    List.elem_eq_true_of_mem hheld
  simp only [translationKeys, List.mem_cons, List.not_mem_nil, or_false]
    at hk
  rcases hk with rfl | rfl | rfl | rfl | rfl | rfl
  · simp only [FlyInteractor.tickCmds]
    exact List.mem_append_left _ (List.mem_append_left _ (List.mem_append_left _ (List.mem_append_left _ (List.mem_append_left _ (List.mem_append_left _ (List.mem_append_left _ (List.mem_append_left _ (List.mem_append_left _ (List.mem_append_left _ (List.mem_append_left _ (by simpa [hcon, flyMoveVec, keyA, keyD, keyW, keyS, keyQ, keyZ] using hheld)))))))))))
  · simp only [FlyInteractor.tickCmds]
    exact List.mem_append_left _ (List.mem_append_left _ (List.mem_append_left _ (List.mem_append_left _ (List.mem_append_left _ (List.mem_append_left _ (List.mem_append_left _ (List.mem_append_left _ (List.mem_append_left _ (List.mem_append_left _ (List.mem_append_right _ (by simpa [hcon, flyMoveVec, keyA, keyD, keyW, keyS, keyQ, keyZ] using hheld)))))))))))
  · simp only [FlyInteractor.tickCmds]
    exact List.mem_append_left _ (List.mem_append_left _ (List.mem_append_left _ (List.mem_append_left _ (List.mem_append_left _ (List.mem_append_left _ (List.mem_append_left _ (List.mem_append_left _ (List.mem_append_left _ (List.mem_append_right _ (by simpa [hcon, flyMoveVec, keyA, keyD, keyW, keyS, keyQ, keyZ] using hheld))))))))))
  · simp only [FlyInteractor.tickCmds]
    exact List.mem_append_left _ (List.mem_append_left _ (List.mem_append_left _ (List.mem_append_left _ (List.mem_append_left _ (List.mem_append_left _ (List.mem_append_left _ (List.mem_append_left _ (List.mem_append_right _ (by simpa [hcon, flyMoveVec, keyA, keyD, keyW, keyS, keyQ, keyZ] using hheld)))))))))
  · simp only [FlyInteractor.tickCmds]
    exact List.mem_append_left _ (List.mem_append_left _ (List.mem_append_left _ (List.mem_append_left _ (List.mem_append_left _ (List.mem_append_left _ (List.mem_append_left _ (List.mem_append_right _ (by simpa [hcon, flyMoveVec, keyA, keyD, keyW, keyS, keyQ, keyZ] using hheld))))))))
  · simp only [FlyInteractor.tickCmds]
    exact List.mem_append_left _ (List.mem_append_left _ (List.mem_append_left _ (List.mem_append_left _ (List.mem_append_left _ (List.mem_append_left _ (List.mem_append_right _ (by simpa [hcon, flyMoveVec, keyA, keyD, keyW, keyS, keyQ, keyZ] using hheld)))))))

/-- C6: on a tick in fly mode with a held translation key (`a`, `d`, `w`,
`s`, `q` or `z`), the interactor issues a move along the corresponding
local axis of length exactly `0.0025` times the bounding-volume extent
norm and reports redraw-needed; the per-tick distance is linear in the
bounding-volume diagonal — doubling the extent doubles it. -/
theorem fly_tick_translation_step (f f2 : FlyInteractor) (k : Nat)
    (hk : k ∈ translationKeys) (hheld : k ∈ f.keys_down)
    (hdouble : f2.bounds.extent = (2 : ℝ) • f.bounds.extent) :
    (f.Tick).2 = true ∧
    FlyCmd.moveLocal (flyMoveVec k ((0.0025 : ℝ) * f.bounds.extent.norm)) ∈
      (f.Tick).1 ∧
    (flyMoveVec k ((0.0025 : ℝ) * f.bounds.extent.norm)).norm =
      (0.0025 : ℝ) * f.bounds.extent.norm ∧
    (0.0025 : ℝ) * f2.bounds.extent.norm =
      2 * ((0.0025 : ℝ) * f.bounds.extent.norm) := by
  have hne : f.keys_down.isEmpty = false := by
    cases hkd : f.keys_down with
    | nil => rw [hkd] at hheld; exact absurd hheld (List.not_mem_nil k)
    | cons a l => simp
  have hT : f.Tick = (f.tickCmds, !f.tickCmds.isEmpty) := by
    simp [FlyInteractor.Tick, hne]
  have hmem := tickCmds_mem_translation f k hk hheld
  have hd : (0 : ℝ) ≤ (0.0025 : ℝ) * f.bounds.extent.norm := by
    have h0 := Vec3.norm_nonneg f.bounds.extent
    positivity
  refine ⟨?_, ?_, flyMoveVec_norm k _ hd hk, ?_⟩
  · rw [hT]
    cases hc : f.tickCmds with
    | nil => rw [hc] at hmem; exact absurd hmem (List.not_mem_nil _)
    | cons a l => simp [hc]
  · rw [hT]
    exact hmem
  · rw [hdouble, Vec3.norm_smul_of_nonneg _ _ (by norm_num)]
    ring

/-- A fly interactor holding the `a` key over a unit-ish bounding box. -/
noncomputable def flyHeldA : FlyInteractor :=
  ⟨[keyA], ⟨⟨0, 0, 0⟩, ⟨1, 2, 2⟩⟩⟩

/-- The same interactor over a bounding box of doubled extent. -/
noncomputable def flyHeldA2 : FlyInteractor :=
  ⟨[keyA], ⟨⟨0, 0, 0⟩, ⟨2, 4, 4⟩⟩⟩

/-- Witness for C6 with the `a` key held and a doubled bounding box. -/
theorem fly_tick_translation_step_witness :
    (keyA ∈ translationKeys ∧ keyA ∈ flyHeldA.keys_down ∧
      flyHeldA2.bounds.extent = (2 : ℝ) • flyHeldA.bounds.extent) ∧
    ((flyHeldA.Tick).2 = true ∧
     FlyCmd.moveLocal
         (flyMoveVec keyA ((0.0025 : ℝ) * flyHeldA.bounds.extent.norm)) ∈
       (flyHeldA.Tick).1 ∧
     (flyMoveVec keyA ((0.0025 : ℝ) * flyHeldA.bounds.extent.norm)).norm =
       (0.0025 : ℝ) * flyHeldA.bounds.extent.norm ∧
     (0.0025 : ℝ) * flyHeldA2.bounds.extent.norm =
       2 * ((0.0025 : ℝ) * flyHeldA.bounds.extent.norm)) :=
  ⟨⟨by decide, by simp [flyHeldA],
    by simp [flyHeldA, flyHeldA2, AABB.extent, Vec3.sub_def, Vec3.smul_def]
       norm_num⟩,
   fly_tick_translation_step flyHeldA flyHeldA2 keyA (by decide)
     (by simp [flyHeldA])
     (by simp [flyHeldA, flyHeldA2, AABB.extent, Vec3.sub_def, Vec3.smul_def]
         norm_num)⟩

/-! ## Dolly gesture-source mapping -/

/-- Drag sources distinguished by `MatrixInteractorLogic::DragType`. -/
inductive DragType where
  | MOUSE
  | WHEEL
  | TWO_FINGER
deriving DecidableEq, Repr

/-- Modelled from the spec: the magnitude-to-distance mapping used by
`Dolly(delta, source)` (`MatrixInteractorLogic::CalcDollyDist`) is not among
the excerpted sources; the spec states that each source has its own
mapping scaled to content size and that the wheel source maps the raw delta
to twice the distance of the trackpad/drag sources ("2×" factor).  A base
scale of `0.01 * modelSize` per unit delta is used for the trackpad and
drag sources and twice that for the wheel source; zoom direction is
inverted for scroll-based sources. -/
noncomputable def MatrixInteractorLogic.CalcDollyDist (dy : ℝ)
    (dragType : DragType) (modelSize : ℝ) : ℝ :=
  match dragType with
  | DragType.MOUSE => dy * 0.01 * modelSize
  | DragType.TWO_FINGER => -dy * 0.01 * modelSize
  | DragType.WHEEL => -dy * 0.02 * modelSize

/-- Embedding of the `MouseEvent::WHEEL` case of
`RotationInteractor::Mouse`: dollies by `2.0 * e.wheel.dy` with source
`TWO_FINGER` when the event comes from a trackpad and `WHEEL` otherwise. -/
noncomputable def RotationInteractor.wheelDolly (wheelDy : ℝ)
    (isTrackpad : Bool) (modelSize : ℝ) : ℝ :=
  MatrixInteractorLogic.CalcDollyDist ((2.0 : ℝ) * wheelDy)
    (if isTrackpad then DragType.TWO_FINGER else DragType.WHEEL) modelSize

/-- C7: for the same raw delta, the dolly magnitude of a discrete
mouse-wheel tick is exactly twice that of a trackpad two-finger gesture
(and of a mouse-drag delta), both at the `CalcDollyDist` mapping and
through the wheel-event path of `RotationInteractor::Mouse`. -/
theorem wheel_dolly_twice_trackpad (d m : ℝ) :
    |MatrixInteractorLogic.CalcDollyDist d DragType.WHEEL m| =
      2 * |MatrixInteractorLogic.CalcDollyDist d DragType.TWO_FINGER m| ∧
    |MatrixInteractorLogic.CalcDollyDist d DragType.WHEEL m| =
      2 * |MatrixInteractorLogic.CalcDollyDist d DragType.MOUSE m| ∧
    |RotationInteractor.wheelDolly d false m| =
      2 * |RotationInteractor.wheelDolly d true m| := by
  have habs : ∀ x : ℝ, |2 * x| = 2 * |x| := by
    intro x
    rw [abs_mul]
    norm_num
  refine ⟨?_, ?_, ?_⟩
  · rw [show MatrixInteractorLogic.CalcDollyDist d DragType.WHEEL m =
        2 * MatrixInteractorLogic.CalcDollyDist d DragType.TWO_FINGER m by
      simp [MatrixInteractorLogic.CalcDollyDist]; ring]
    exact habs _
  · rw [show MatrixInteractorLogic.CalcDollyDist d DragType.WHEEL m =
        2 * -MatrixInteractorLogic.CalcDollyDist d DragType.MOUSE m by
      simp [MatrixInteractorLogic.CalcDollyDist]; ring]
    rw [habs, abs_neg]
  · rw [show RotationInteractor.wheelDolly d false m =
        2 * RotationInteractor.wheelDolly d true m by
      simp [RotationInteractor.wheelDolly,
        MatrixInteractorLogic.CalcDollyDist]; ring]
    exact habs _

/-! ## Number edit limits (`NumberEdit::SetLimits`) -/

/-- The widget's numeric type (`NumberEdit::Type`). -/
inductive NumberType where
  | INT
  | DOUBLE
deriving DecidableEq, Repr

/-- Rounding half away from zero, modelling `std::round`. -/
noncomputable def cppRound (x : ℝ) : ℝ :=
  if 0 ≤ x then (⌊x + 1 / 2⌋ : ℤ) else (⌈x - 1 / 2⌉ : ℤ)

/-- State of a `NumberEdit`: its type, current value and stored bounds. -/
structure NumberEdit where
  type : NumberType
  value : ℝ
  min_value : ℝ
  max_value : ℝ

/-- Embedding of `NumberEdit::SetLimits(min_value, max_value)`: the INT
branch stores the rounded bounds; the non-INT branch assigns `min_value`
to both stored bounds; in both branches the held value is then clamped to
`min(max_value, max(min_value, value))`. -/
noncomputable def NumberEdit.SetLimits (s : NumberEdit)
    (min_value max_value : ℝ) : NumberEdit :=
  let s1 :=
    match s.type with
    | NumberType.INT =>
        { s with min_value := cppRound min_value,
                 max_value := cppRound max_value }
    | NumberType.DOUBLE =>
        { s with min_value := min_value, max_value := min_value }
  { s1 with value := min max_value (max min_value s1.value) }

/-- C8: in the non-integer branch `SetLimits` stores `min_value` in both
bounds, while the held value is still clamped into
`[min_value, max_value]`; in the integer branch the stored bounds become
the rounded `min_value` and `max_value`. -/
theorem setLimits_double_assigns_min_twice (s : NumberEdit) (mn mx : ℝ) :
    (s.type = NumberType.DOUBLE →
      (s.SetLimits mn mx).min_value = mn ∧
      (s.SetLimits mn mx).max_value = mn) ∧
    (s.type = NumberType.INT →
      (s.SetLimits mn mx).min_value = cppRound mn ∧
      (s.SetLimits mn mx).max_value = cppRound mx) ∧
    (s.SetLimits mn mx).value = min mx (max mn s.value) := by
  obtain ⟨t, v, a, b⟩ := s
  cases t <;> simp [NumberEdit.SetLimits]

/-- A concrete non-integer number edit. -/
noncomputable def dblEdit : NumberEdit :=
  ⟨NumberType.DOUBLE, 3, 0, 10⟩

/-- Witness for C8: on a DOUBLE edit, `SetLimits(1, 5)` stores 1 in both
bounds and clamps the value against the arguments. -/
theorem setLimits_double_assigns_min_twice_witness :
    dblEdit.type = NumberType.DOUBLE ∧
    (dblEdit.SetLimits 1 5).min_value = 1 ∧
    (dblEdit.SetLimits 1 5).max_value = 1 ∧
    (dblEdit.SetLimits 1 5).value = min 5 (max 1 dblEdit.value) :=
  ⟨rfl,
   ((setLimits_double_assigns_min_twice dblEdit 1 5).1 rfl).1,
   ((setLimits_double_assigns_min_twice dblEdit 1 5).1 rfl).2,
   (setLimits_double_assigns_min_twice dblEdit 1 5).2.2⟩
